import Mathlib

/-!
Verification of the river water-quality dashboard (`dashboard.py`).

The development shallowly embeds the program:

* a CSV cell is modelled by how the pandas coercion functions treat it
  (`Cell`), with `parseTs` standing for `pd.to_datetime(_, errors="coerce")`
  on one cell and `parseNum` for `pd.to_numeric(_, errors="coerce")`;
* timestamps are day numbers (`Nat`, days since 1970-01-01, a Thursday), so
  the three pandas resampling rules `D`, `W` (Sunday-ending weeks) and `ME`
  (month ends) become the label maps `dayLabel`, `weekLabel`, `monthEndLabel`;
* the filesystem is a map from file name to an optional CSV file, `read_csv`
  with `usecols` being modelled by files that carry the declared columns;
* `load_data` returns `LoadResult.failure` for the `(None, None)` branch of
  the Python `except FileNotFoundError` handler, and `LoadResult.success`
  with the eight tables otherwise; callers that unpack the result into eight
  names raise `ValueError` on `failure`, modelled as `Err.unpack`;
* the two Dash callbacks become `update_parameter_options` (an `Option`,
  `none` standing for a `KeyError` on an unknown dictionary key) and
  `update_content` (an `Except Err Output`, where `Output` describes the
  rendered component: the `columns` and `data` props of a `DataTable`, the
  column plotted by `px.histogram`, or the point series of `px.line`).
-/

namespace WaterQuality

/-- A CSV cell, classified by how the pandas coercion functions parse it:
`tsText t` is a string that parses as the date-time of day number `t` (and is
not numeric), `numText q` is a string that parses as the number `q`, `junk`
parses as neither, `missing` is an empty cell. -/
inductive Cell where
  | missing : Cell
  | tsText : Nat → Cell
  | numText : ℚ → Cell
  | junk : String → Cell
deriving DecidableEq

/-- Cell-level `pd.to_datetime(_, errors="coerce")`: an unparseable value
becomes `none` (NaT) instead of raising. -/
def parseTs : Cell → Option Nat
  | .tsText t => some t
  | _ => none

/-- Cell-level `pd.to_numeric(_, errors="coerce")`: an unparseable value
becomes `none` (NaN) instead of raising. -/
def parseNum : Cell → Option ℚ
  | .numText q => some q
  | _ => none

/-- A CSV file as `pd.read_csv` delivers it (already restricted to the
declared `usecols` columns): a header row of column names and data rows. -/
structure RawCsv where
  header : List String
  rows : List (List Cell)
deriving DecidableEq

/-- The filesystem: file name to optional contents; `none` means the file is
missing, so `pd.read_csv` raises `FileNotFoundError`. -/
def FS : Type := String → Option RawCsv

/-- The `custom_variables` dictionary of `dashboard.py`: for each river the
declared raw-schema and cleaned-schema column lists, in order. -/
def customVariables : List (String × (List String × List String)) :=
  [("KualaSG",
    (["time", "PH_Sensor", "ORP_Sensor", "TR_Sensor", "CT_Sensor", "TDS_Sensor",
      "NH_SEnsor", "DO_Sensor", "COD_Sensor", "BOD_Sensor"],
     ["Timestamp", "PH_Sensor", "ORP_Sensor", "TR_Sensor", "CT_Sensor", "DO_Sensor"])),
   ("Bilut",
    (["time", "PH_Sensor", "ORP_Sensor", "CT_Sensor", "TDS_Sensor", "NH_sensor",
      "COD_Sensor", "DO_Sensor", "BOD_Sensor", "TR_Sensor"],
     ["Timestamp", "PH_Sensor", "ORP_Sensor", "CT_Sensor", "TDS_Sensor", "NH_sensor",
      "TR_Sensor"])),
   ("Kechau",
    (["time", "Ph_Sensor", "ORP_Sensor", "CT_Sensor", "TDS_Sensor", "NH_Sensor",
      "DO_Sensor", "TR_Sensor", "BOD_Sensor", "COD_Sensor"],
     ["Timestamp", "ORP_Sensor", "CT_Sensor", "TDS_Sensor", "NH_Sensor"]))]

/-- Dictionary lookup `custom_variables[river]`; `none` models a `KeyError`. -/
def lookupVars (river : String) : Option (List String × List String) :=
  (customVariables.find? (fun p => p.1 == river)).map Prod.snd

/-- Whether a column name contains the substring "time", case-insensitively
(`'time' in col.lower()`). -/
def containsTime (c : String) : Bool :=
  decide ("time".toList <:+: c.toList.map Char.toLower)

/-- The rename step `df_raw.rename(columns={col: "Timestamp" for col in
df_raw.columns if 'time' in col.lower()})`. -/
def renameCols (hdr : List String) : List String :=
  hdr.map (fun c => if containsTime c then "Timestamp" else c)

/-- A loaded table after `set_index("Timestamp")`: the remaining column names
in order, and one `(timestamp index, column values)` pair per CSV record
(`none` is NaT/NaN). -/
structure Table where
  cols : List String
  rows : List (Option Nat × List (Option ℚ))
deriving DecidableEq

/-- Coercion and indexing of one CSV record: the cell of the column named
"Timestamp" is date-parsed and becomes the index, every other cell is
numerically coerced, in column order. -/
def processRow (hdr : List String) (row : List Cell) : Option Nat × List (Option ℚ) :=
  let named := hdr.zip row
  ((named.find? (fun p => p.1 == "Timestamp")).bind (fun p => parseTs p.2),
   (named.filter (fun p => p.1 != "Timestamp")).map (fun p => parseNum p.2))

/-- The per-table part of `load_data`: optional rename of time-like columns
(done for the raw file only), then type coercion, then `set_index`. -/
def processTable (doRename : Bool) (csv : RawCsv) : Table :=
  let hdr := if doRename then renameCols csv.header else csv.header
  { cols := hdr.filter (fun c => c != "Timestamp"),
    rows := csv.rows.map (processRow hdr) }

/-- Resampling label of rule `D`: each day is its own bucket. -/
def dayLabel (t : Nat) : Nat := t

/-- Resampling label of rule `W` (= `W-SUN`): the Sunday ending the week of
`t`. Day 0 (1970-01-01) is a Thursday, so Sundays are the days `≡ 3 (mod 7)`,
and the label is the first such day `≥ t`. -/
def weekLabel (t : Nat) : Nat := t + (10 - t % 7) % 7

/-- Proleptic Gregorian conversion of a day number (days since 1970-01-01)
into (year, month, day); the closed-form civil-from-days algorithm. -/
def civilFromDays (t : Nat) : Nat × Nat × Nat :=
  let z := t + 719468
  let era := z / 146097
  let doe := z % 146097
  let yoe := (doe - doe / 1460 + doe / 36524 - doe / 146096) / 365
  let y := yoe + era * 400
  let doy := doe - (365 * yoe + yoe / 4 - yoe / 100)
  let mp := (5 * doy + 2) / 153
  let d := doy - (153 * mp + 2) / 5 + 1
  let m := if mp < 10 then mp + 3 else mp - 9
  (if m ≤ 2 then y + 1 else y, m, d)

/-- Gregorian leap-year rule. -/
def isLeapYear (y : Nat) : Bool :=
  (y % 4 == 0 && y % 100 != 0) || y % 400 == 0

/-- Number of days of month `m` of year `y`. -/
def daysInMonth (y m : Nat) : Nat :=
  if m = 2 then (if isLeapYear y then 29 else 28)
  else if m = 4 ∨ m = 6 ∨ m = 9 ∨ m = 11 then 30
  else 31

/-- Resampling label of rule `ME`: the last day of the month of `t`. -/
def monthEndLabel (t : Nat) : Nat :=
  let ymd := civilFromDays t
  t + (daysInMonth ymd.1 ymd.2.1 - ymd.2.2)

/-- A resampled table: one `(bucket label, mean values)` row per bucket, the
values positionally matching the source table's `cols`. -/
abbrev RTable := List (Nat × List (Option ℚ))

/-- The records of a table whose index parsed to an actual timestamp; rows
with a NaT index are excluded from every resampling bucket. -/
def validRows (t : Table) : List (Nat × List (Option ℚ)) :=
  t.rows.filterMap (fun r => r.1.map (fun ts => (ts, r.2)))

/-- The valid timestamps of a table, in record order. -/
def tsList (t : Table) : List Nat := (validRows t).map Prod.fst

/-- Mean of a list of rationals; the empty list has no mean (`NaN`), it is
never reported as zero. -/
def meanOpt (l : List ℚ) : Option ℚ :=
  if l = [] then none else some (l.sum / l.length)

/-- The non-missing values of column `j` whose record's timestamp falls in
the bucket labelled `L`. -/
def bucketVals (lbl : Nat → Nat) (t : Table) (L : Nat) (j : Nat) : List ℚ :=
  (validRows t).filterMap (fun r => if lbl r.1 = L then r.2.getD j none else none)

/-- The bucket labels a resampling produces: pandas emits one bin for every
bucket met between the smallest and the largest valid timestamp, in order,
including buckets with no record. -/
def spanLabels (lbl : Nat → Nat) (t : Table) : List Nat :=
  match (tsList t).min?, (tsList t).max? with
  | some a, some b => ((List.range (b + 1 - a)).map (fun i => lbl (a + i))).dedup
  | _, _ => []

/-- `df.resample(rule).mean(numeric_only=True)`: one row per bucket label,
each cell the mean of the non-missing values of that column in that bucket. -/
def resample (lbl : Nat → Nat) (t : Table) : RTable :=
  (spanLabels lbl t).map (fun L =>
    (L, (List.range t.cols.length).map (fun j => meanOpt (bucketVals lbl t L j))))

/-- Result of `load_data`: `failure` is the `(None, None)` 2-tuple returned
when a `FileNotFoundError` was caught, `success` carries the eight tables of
the normal return. -/
inductive LoadResult where
  | failure : LoadResult
  | success : Table → Table → RTable → RTable → RTable → RTable → RTable → RTable → LoadResult
deriving DecidableEq

/-- `load_data(river)` on filesystem `fs`. The outer `Option` is the uncaught
`KeyError` on `custom_variables[river]` for an undeclared river; a missing
CSV file (either of the two) takes the `except FileNotFoundError` branch,
which prints a diagnostic and returns `(None, None)` (`failure`). -/
def load_data (fs : FS) (river : String) : Option LoadResult :=
  (lookupVars river).map (fun _ =>
    match fs (river ++ "_Raw.csv"), fs (river ++ "_Cleaned.csv") with
    | some rawCsv, some cleanedCsv =>
      let dfRaw := processTable true rawCsv
      let dfCleaned := processTable false cleanedCsv
      .success dfRaw dfCleaned
        (resample dayLabel dfRaw) (resample weekLabel dfRaw) (resample monthEndLabel dfRaw)
        (resample dayLabel dfCleaned) (resample weekLabel dfCleaned) (resample monthEndLabel dfCleaned)
    | _, _ => .failure)

/-- The dropdown options returned by the `update_parameter_options` callback:
`custom_variables[selected_river][selected_dataset][1:]` as label/value
pairs; `none` models the `KeyError` on an unknown dictionary key. -/
def update_parameter_options (river dataset : String) : Option (List (String × String)) :=
  (lookupVars river).bind (fun vars =>
    if dataset = "raw" then some ((vars.1.drop 1).map (fun p => (p, p)))
    else if dataset = "cleaned" then some ((vars.2.drop 1).map (fun p => (p, p)))
    else none)

/-- The component rendered by `update_content`: the placeholder message, a
`DataTable` (its `columns` prop and its `data` records, each record carrying
the reset index), a histogram of one column's values, a line chart of
`(bucket label, value)` points, or Python's implicit `None`. -/
inductive Output where
  | message : String → Output
  | dataTable : List String → List (Option Nat × List (Option ℚ)) → Output
  | histogram : List (Option ℚ) → Output
  | lineChart : List (Nat × Option ℚ) → Output
  | noneOut : Output
deriving DecidableEq

/-- An exception escaping the `update_content` callback: `unpack` is the
`ValueError` raised when the 2-tuple `(None, None)` is unpacked into eight
names, `keyErr` a dictionary `KeyError`, `figErr` a plotly error for a column
name absent from the frame. -/
inductive Err where
  | unpack : Err
  | keyErr : Err
  | figErr : Err
deriving DecidableEq

deriving instance DecidableEq for Except

/-- The `update_content` callback: placeholder until the button has been
clicked, then a fresh `load_data` call, selection of the displayed frame and
of the raw-resampled trend frame, and one of the three renderings. -/
def update_content (fs : FS) (n_clicks : Nat)
    (river dataset visualization time_range parameter : String) : Except Err Output :=
  if n_clicks = 0 then .ok (.message "Click 'Display Data' to show the results.")
  else
    match load_data fs river with
    | none => .error .keyErr
    | some .failure => .error .unpack
    | some (.success dfRaw dfCleaned rawDaily rawWeekly rawMonthly _ _ _) =>
      let df := if dataset = "raw" then dfRaw else dfCleaned
      match (if time_range = "daily" then some rawDaily
             else if time_range = "weekly" then some rawWeekly
             else if time_range = "monthly" then some rawMonthly
             else none) with
      | none => .error .keyErr
      | some dfTrend =>
        if visualization = "table" then
          .ok (.dataTable df.cols df.rows)
        else if visualization = "histogram" then
          match df.cols.findIdx? (· == parameter) with
          | some j => .ok (.histogram (df.rows.map (fun r => r.2.getD j none)))
          | none => .error .figErr
        else if visualization = "trend" then
          match dfRaw.cols.findIdx? (· == parameter) with
          | some j => .ok (.lineChart (dfTrend.map (fun r => (r.1, r.2.getD j none))))
          | none => .error .figErr
        else .ok .noneOut

/-! Concrete filesystem fixtures used to evaluate the embedding. -/

/-- A KualaSG raw CSV file with the declared raw schema and two records. -/
def kualaRawCsv : RawCsv :=
  { header := ["time", "PH_Sensor", "ORP_Sensor", "TR_Sensor", "CT_Sensor", "TDS_Sensor",
               "NH_SEnsor", "DO_Sensor", "COD_Sensor", "BOD_Sensor"],
    rows := [[.tsText 0, .numText 7, .numText 1, .numText 2, .numText 3, .numText 4,
              .numText 5, .numText 6, .numText 8, .numText 9],
             [.tsText 1, .junk "n/a", .numText 1, .numText 2, .numText 3, .numText 4,
              .numText 5, .numText 6, .numText 8, .missing]] }

/-- A KualaSG cleaned CSV file with the declared cleaned schema and one record. -/
def kualaCleanedCsv : RawCsv :=
  { header := ["Timestamp", "PH_Sensor", "ORP_Sensor", "TR_Sensor", "CT_Sensor", "DO_Sensor"],
    rows := [[.tsText 0, .numText 7, .numText 1, .numText 2, .numText 3, .numText 5]] }

/-- A Kechau raw CSV file with the declared raw schema and one record. -/
def kechauRawCsv : RawCsv :=
  { header := ["time", "Ph_Sensor", "ORP_Sensor", "CT_Sensor", "TDS_Sensor", "NH_Sensor",
               "DO_Sensor", "TR_Sensor", "BOD_Sensor", "COD_Sensor"],
    rows := [[.tsText 5, .numText 1, .numText 2, .numText 3, .numText 4, .numText 5,
              .numText 6, .numText 7, .numText 8, .numText 9]] }

/-- A filesystem holding both KualaSG files. -/
def fsKuala : FS := fun p =>
  if p = "KualaSG_Raw.csv" then some kualaRawCsv
  else if p = "KualaSG_Cleaned.csv" then some kualaCleanedCsv
  else none

/-- A filesystem holding Kechau's raw file but not its cleaned file. -/
def fsKechauNoCleaned : FS := fun p =>
  if p = "Kechau_Raw.csv" then some kechauRawCsv else none

/-- A filesystem with no files at all. -/
def fsEmpty : FS := fun _ => none

/-! Helper lemmas. -/

/-- Inversion of a successful `custom_variables` lookup: the river is one of
the three declared ones and the schema pair is the declared one. -/
theorem lookupVars_inv {river : String} {vars : List String × List String}
    (h : lookupVars river = some vars) :
    (river = "KualaSG" ∧ vars =
      (["time", "PH_Sensor", "ORP_Sensor", "TR_Sensor", "CT_Sensor", "TDS_Sensor",
        "NH_SEnsor", "DO_Sensor", "COD_Sensor", "BOD_Sensor"],
       ["Timestamp", "PH_Sensor", "ORP_Sensor", "TR_Sensor", "CT_Sensor", "DO_Sensor"])) ∨
    (river = "Bilut" ∧ vars =
      (["time", "PH_Sensor", "ORP_Sensor", "CT_Sensor", "TDS_Sensor", "NH_sensor",
        "COD_Sensor", "DO_Sensor", "BOD_Sensor", "TR_Sensor"],
       ["Timestamp", "PH_Sensor", "ORP_Sensor", "CT_Sensor", "TDS_Sensor", "NH_sensor",
        "TR_Sensor"])) ∨
    (river = "Kechau" ∧ vars =
      (["time", "Ph_Sensor", "ORP_Sensor", "CT_Sensor", "TDS_Sensor", "NH_Sensor",
        "DO_Sensor", "TR_Sensor", "BOD_Sensor", "COD_Sensor"],
       ["Timestamp", "ORP_Sensor", "CT_Sensor", "TDS_Sensor", "NH_Sensor"])) := by
  by_cases h1 : river = "KualaSG"
  · subst h1
    left
    refine ⟨rfl, ?_⟩
    simp [lookupVars, customVariables] at h
    simp [h.symm]
  by_cases h2 : river = "Bilut"
  · subst h2
    right; left
    refine ⟨rfl, ?_⟩
    simp [lookupVars, customVariables] at h
    simp [h.symm]
  by_cases h3 : river = "Kechau"
  · subst h3
    right; right
    refine ⟨rfl, ?_⟩
    simp [lookupVars, customVariables] at h
    simp [h.symm]
  exfalso
  simp [lookupVars, customVariables,
    List.find?_cons_of_neg, Ne.symm h1, Ne.symm h2, Ne.symm h3] at h

/-- The bucket labels of a resampled table are exactly the span labels. -/
theorem resample_fst (lbl : Nat → Nat) (t : Table) :
    (resample lbl t).map Prod.fst = spanLabels lbl t := by
  simp only [resample, List.map_map]
  exact List.map_id _

/-- Resampling emits each bucket label at most once. -/
theorem spanLabels_nodup (lbl : Nat → Nat) (t : Table) :
    (spanLabels lbl t).Nodup := by
  cases hmin : (tsList t).min? <;> cases hmax : (tsList t).max? <;>
    simp [spanLabels, hmin, hmax, List.nodup_dedup]

/-- A label is emitted iff it is the label of some day in the closed span
from the smallest to the largest valid timestamp. -/
theorem mem_spanLabels {lbl : Nat → Nat} {t : Table} {a b : Nat}
    (hmin : (tsList t).min? = some a) (hmax : (tsList t).max? = some b)
    (x : Nat) :
    x ∈ spanLabels lbl t ↔ ∃ u, a ≤ u ∧ u ≤ b ∧ lbl u = x := by
  simp only [spanLabels, hmin, hmax, List.mem_dedup, List.mem_map, List.mem_range]
  constructor
  · rintro ⟨i, hi, rfl⟩
    exact ⟨a + i, Nat.le_add_right _ _, by omega, rfl⟩
  · rintro ⟨u, hau, hub, rfl⟩
    refine ⟨u - a, by omega, ?_⟩
    congr 1
    omega

/-- The number of emitted labels is the number of distinct buckets met in
the closed span of the valid timestamps. -/
theorem spanLabels_length {lbl : Nat → Nat} {t : Table} {a b : Nat}
    (hmin : (tsList t).min? = some a) (hmax : (tsList t).max? = some b) :
    (spanLabels lbl t).length = ((Finset.Icc a b).image lbl).card := by
  have h1 : spanLabels lbl t =
      ((List.range (b + 1 - a)).map (fun i => lbl (a + i))).dedup := by
    simp [spanLabels, hmin, hmax]
  rw [h1, ← List.card_toFinset]
  congr 1
  ext x
  simp only [List.mem_toFinset, List.mem_map, List.mem_range, Finset.mem_image,
    Finset.mem_Icc]
  constructor
  · rintro ⟨i, hi, rfl⟩
    exact ⟨a + i, ⟨Nat.le_add_right _ _, by omega⟩, rfl⟩
  · rintro ⟨u, ⟨hau, hub⟩, rfl⟩
    refine ⟨u - a, by omega, ?_⟩
    congr 1
    omega

/-- The cell of the column named "Timestamp" of one CSV record, under a
given header. -/
def tsCellOf (hdr : List String) (row : List Cell) : Option Cell :=
  ((hdr.zip row).find? (fun q => q.1 == "Timestamp")).map Prod.snd

/-- The cells of all columns not named "Timestamp" of one CSV record, in
column order, under a given header. -/
def otherCells (hdr : List String) (row : List Cell) : List Cell :=
  ((hdr.zip row).filter (fun q => q.1 != "Timestamp")).map Prod.snd

/-- When the header starts with "Timestamp", the index produced for a record
is the date-parse of the record's first cell. -/
theorem processRow_fst_of_head (hdr : List String) (row : List Cell)
    (hh : hdr.head? = some "Timestamp") :
    (processRow hdr row).1 = row.head?.bind parseTs := by
  cases hdr with
  | nil => simp at hh
  | cons h0 hs =>
    simp only [List.head?_cons, Option.some.injEq] at hh
    subst hh
    cases row with
    | nil => simp [processRow]
    | cons c cs => simp [processRow]

/-! Claim theorems. -/

/-- C1. With `KualaSG_Raw.csv` missing, `load_data` itself takes the guarded
branch and returns the `(None, None)` 2-tuple, but a display trigger with one
click does not render a "no data" result: unpacking the 2-tuple into eight
names raises `ValueError`, so `update_content` propagates an error. -/
theorem c1_missing_file_trigger_propagates_error :
    load_data fsEmpty "KualaSG" = some .failure ∧
    update_content fsEmpty 1 "KualaSG" "raw" "table" "daily" "PH_Sensor" =
      .error .unpack := by
  decide

/-- C2 counterexample. With `Kechau_Raw.csv` present on disk and
`Kechau_Cleaned.csv` missing, `load_data` does not return the raw dataset's
results: both `read_csv` calls sit in one `try`, so the handler discards the
raw table and hands back the bare `(None, None)` 2-tuple. -/
theorem c2_partial_failure_returns_nothing :
    fsKechauNoCleaned "Kechau_Raw.csv" = some kechauRawCsv ∧
    fsKechauNoCleaned "Kechau_Cleaned.csv" = none ∧
    load_data fsKechauNoCleaned "Kechau" = some .failure := by
  decide

/-- C2 amended. On a successful load `load_data` returns the eight tables
(raw, cleaned and three resampled variants of each) as one unit; but when
either CSV file is missing — in particular the cleaned one with the raw one
present — the loader returns with both datasets absent, not just the missing
one. -/
theorem c2_eight_tables_or_both_absent (fs : FS) (river : String)
    {vars : List String × List String} (h : lookupVars river = some vars) :
    (∀ fr fc, fs (river ++ "_Raw.csv") = some fr →
      fs (river ++ "_Cleaned.csv") = some fc →
      load_data fs river = some (.success
        (processTable true fr) (processTable false fc)
        (resample dayLabel (processTable true fr))
        (resample weekLabel (processTable true fr))
        (resample monthEndLabel (processTable true fr))
        (resample dayLabel (processTable false fc))
        (resample weekLabel (processTable false fc))
        (resample monthEndLabel (processTable false fc)))) ∧
    ((fs (river ++ "_Raw.csv") = none ∨ fs (river ++ "_Cleaned.csv") = none) →
      load_data fs river = some .failure) := by
  constructor
  · intro fr fc hr hc
    simp [load_data, h, hr, hc]
  · rintro (hr | hc)
    · simp [load_data, h, hr]
    · cases hr : fs (river ++ "_Raw.csv") <;> simp [load_data, h, hr, hc]

/-- C2 witness: the amended statement evaluated on concrete filesystems. -/
theorem c2_eight_tables_or_both_absent_witness :
    load_data fsKuala "KualaSG" = some (.success
      (processTable true kualaRawCsv) (processTable false kualaCleanedCsv)
      (resample dayLabel (processTable true kualaRawCsv))
      (resample weekLabel (processTable true kualaRawCsv))
      (resample monthEndLabel (processTable true kualaRawCsv))
      (resample dayLabel (processTable false kualaCleanedCsv))
      (resample weekLabel (processTable false kualaCleanedCsv))
      (resample monthEndLabel (processTable false kualaCleanedCsv))) ∧
    load_data fsKechauNoCleaned "Kechau" = some .failure :=
  ⟨(c2_eight_tables_or_both_absent fsKuala "KualaSG" rfl).1
      kualaRawCsv kualaCleanedCsv rfl rfl,
   (c2_eight_tables_or_both_absent fsKechauNoCleaned "Kechau" rfl).2
      (Or.inr rfl)⟩

/-- C3. Triggering the table view for KualaSG raw data renders a `DataTable`
whose `columns` prop is `df.columns` taken after `set_index("Timestamp")`, so
the grid declares only the nine sensor columns and omits "Timestamp", even
though each data record (from `df.reset_index()`) still carries one entry per
raw CSV record. -/
theorem c3_table_grid_omits_timestamp_column :
    update_content fsKuala 1 "KualaSG" "raw" "table" "daily" "PH_Sensor" =
      .ok (.dataTable
        ["PH_Sensor", "ORP_Sensor", "TR_Sensor", "CT_Sensor", "TDS_Sensor",
         "NH_SEnsor", "DO_Sensor", "COD_Sensor", "BOD_Sensor"]
        [(some 0, [some 7, some 1, some 2, some 3, some 4, some 5, some 6, some 8, some 9]),
         (some 1, [none, some 1, some 2, some 3, some 4, some 5, some 6, some 8, none])]) ∧
    "Timestamp" ∉ (["PH_Sensor", "ORP_Sensor", "TR_Sensor", "CT_Sensor", "TDS_Sensor",
      "NH_SEnsor", "DO_Sensor", "COD_Sensor", "BOD_Sensor"] : List String) ∧
    kualaRawCsv.rows.length = 2 := by
  decide

/-- C4. For every declared river and both dataset kinds, the
`update_parameter_options` callback returns exactly the declared columns for
that river and dataset minus the leading time column, in declared order: the
option values equal the declared list with its first entry dropped, the
dropped entry is the time column (its name contains "time"), no remaining
option is time-like, and every option value lies in the new declared list, so
a prior selection absent from that list cannot appear among the options. -/
theorem c4_parameter_options_exact {river : String}
    {rawCols cleanedCols : List String} (dataset : String)
    (h : lookupVars river = some (rawCols, cleanedCols))
    (hds : dataset = "raw" ∨ dataset = "cleaned") :
    ∃ opts, update_parameter_options river dataset = some opts ∧
      opts.map Prod.snd = (if dataset = "raw" then rawCols else cleanedCols).drop 1 ∧
      containsTime ((if dataset = "raw" then rawCols else cleanedCols).headD "") = true ∧
      (∀ v ∈ opts.map Prod.snd, containsTime v = false) ∧
      (∀ v ∈ opts.map Prod.snd,
        v ∈ (if dataset = "raw" then rawCols else cleanedCols).drop 1) := by
  rcases lookupVars_inv h with ⟨rfl, hv⟩ | ⟨rfl, hv⟩ | ⟨rfl, hv⟩ <;>
    injection hv with h1 h2 <;> subst h1 <;> subst h2 <;>
    rcases hds with rfl | rfl <;>
    exact ⟨_, rfl, by decide, by decide, by decide, by decide⟩

/-- C4 witness: the statement evaluated at KualaSG with the raw dataset. -/
theorem c4_parameter_options_exact_witness :
    ∃ opts, update_parameter_options "KualaSG" "raw" = some opts ∧
      opts.map Prod.snd = (if "raw" = "raw" then
        ["time", "PH_Sensor", "ORP_Sensor", "TR_Sensor", "CT_Sensor", "TDS_Sensor",
         "NH_SEnsor", "DO_Sensor", "COD_Sensor", "BOD_Sensor"]
        else ["Timestamp", "PH_Sensor", "ORP_Sensor", "TR_Sensor", "CT_Sensor",
              "DO_Sensor"]).drop 1 ∧
      containsTime ((if "raw" = "raw" then
        ["time", "PH_Sensor", "ORP_Sensor", "TR_Sensor", "CT_Sensor", "TDS_Sensor",
         "NH_SEnsor", "DO_Sensor", "COD_Sensor", "BOD_Sensor"]
        else ["Timestamp", "PH_Sensor", "ORP_Sensor", "TR_Sensor", "CT_Sensor",
              "DO_Sensor"]).headD "") = true ∧
      (∀ v ∈ opts.map Prod.snd, containsTime v = false) ∧
      (∀ v ∈ opts.map Prod.snd,
        v ∈ (if "raw" = "raw" then
          ["time", "PH_Sensor", "ORP_Sensor", "TR_Sensor", "CT_Sensor", "TDS_Sensor",
           "NH_SEnsor", "DO_Sensor", "COD_Sensor", "BOD_Sensor"]
          else ["Timestamp", "PH_Sensor", "ORP_Sensor", "TR_Sensor", "CT_Sensor",
                "DO_Sensor"]).drop 1) :=
  c4_parameter_options_exact "raw" (by decide :
    lookupVars "KualaSG" = some
      (["time", "PH_Sensor", "ORP_Sensor", "TR_Sensor", "CT_Sensor", "TDS_Sensor",
        "NH_SEnsor", "DO_Sensor", "COD_Sensor", "BOD_Sensor"],
       ["Timestamp", "PH_Sensor", "ORP_Sensor", "TR_Sensor", "CT_Sensor", "DO_Sensor"]))
    (Or.inl rfl)

/-- C5. Whenever a display trigger succeeds in loading both files, the trend
rendering is identical for the "raw" and the "cleaned" dataset selection, and
equals the line chart drawn from the raw resampled table at the chosen
granularity (daily, weekly or monthly): the dataset-kind selector never
influences the trend view. -/
theorem c5_trend_sources_raw_resample (fs : FS) (river : String)
    {vars : List String × List String} (h : lookupVars river = some vars)
    {fr fc : RawCsv} (hr : fs (river ++ "_Raw.csv") = some fr)
    (hc : fs (river ++ "_Cleaned.csv") = some fc)
    (g : String) (lbl : Nat → Nat)
    (hg : (g, lbl) ∈ ([("daily", dayLabel), ("weekly", weekLabel),
      ("monthly", monthEndLabel)] : List (String × (Nat → Nat))))
    (p : String) :
    update_content fs 1 river "raw" "trend" g p =
      update_content fs 1 river "cleaned" "trend" g p ∧
    ∀ j, (processTable true fr).cols.findIdx? (· == p) = some j →
      update_content fs 1 river "raw" "trend" g p =
        .ok (.lineChart ((resample lbl (processTable true fr)).map
          (fun r => (r.1, r.2.getD j none)))) := by
  have hload : load_data fs river = some (.success
      (processTable true fr) (processTable false fc)
      (resample dayLabel (processTable true fr))
      (resample weekLabel (processTable true fr))
      (resample monthEndLabel (processTable true fr))
      (resample dayLabel (processTable false fc))
      (resample weekLabel (processTable false fc))
      (resample monthEndLabel (processTable false fc))) := by
    simp [load_data, h, hr, hc]
  simp only [List.mem_cons, List.not_mem_nil, or_false] at hg
  rcases hg with hg | hg | hg <;> injection hg with hg1 hg2 <;>
    subst hg1 <;> subst hg2 <;>
    exact ⟨by simp [update_content, hload],
           fun j hj => by simp [update_content, hload, hj]⟩

/-- C5 witness: the statement evaluated at KualaSG, daily granularity, with
the PH sensor parameter. -/
theorem c5_trend_sources_raw_resample_witness :
    update_content fsKuala 1 "KualaSG" "raw" "trend" "daily" "PH_Sensor" =
      update_content fsKuala 1 "KualaSG" "cleaned" "trend" "daily" "PH_Sensor" ∧
    update_content fsKuala 1 "KualaSG" "raw" "trend" "daily" "PH_Sensor" =
      .ok (.lineChart ((resample dayLabel (processTable true kualaRawCsv)).map
        (fun r => (r.1, r.2.getD 0 none)))) :=
  ⟨(c5_trend_sources_raw_resample fsKuala "KualaSG" rfl rfl rfl "daily" dayLabel
      (List.mem_cons_self _ _) "PH_Sensor").1,
   (c5_trend_sources_raw_resample fsKuala "KualaSG" rfl rfl rfl "daily" dayLabel
      (List.mem_cons_self _ _) "PH_Sensor").2 0 (by decide)⟩

/-- C6. For every loaded table and each of the three granularities (day,
Sunday-ending week, month end), the resampled table has exactly one row per
distinct calendar bucket met in the closed span of the valid source
timestamps (none at all when no timestamp parsed), and each cell of a bucket
row is the arithmetic mean of the non-missing source values of its column in
that bucket — or missing, never zero, when the bucket has no valid reading. -/
theorem c6_resample_buckets_and_means (lbl : Nat → Nat)
    (hl : lbl = dayLabel ∨ lbl = weekLabel ∨ lbl = monthEndLabel) (t : Table) :
    ((resample lbl t).map Prod.fst).Nodup ∧
    (tsList t = [] → resample lbl t = []) ∧
    (∀ a b, (tsList t).min? = some a → (tsList t).max? = some b →
      (resample lbl t).length = ((Finset.Icc a b).image lbl).card ∧
      ∀ L, L ∈ (resample lbl t).map Prod.fst ↔ L ∈ (Finset.Icc a b).image lbl) ∧
    ∀ L row, (L, row) ∈ resample lbl t →
      row.length = t.cols.length ∧
      ∀ j, j < t.cols.length →
        (bucketVals lbl t L j = [] → row[j]? = some none) ∧
        (bucketVals lbl t L j ≠ [] →
          row[j]? = some (some ((bucketVals lbl t L j).sum /
            ((bucketVals lbl t L j).length : ℚ)))) := by
  refine ⟨?_, ?_, ?_, ?_⟩
  · rw [resample_fst]
    exact spanLabels_nodup lbl t
  · intro h0
    simp [resample, spanLabels, h0]
  · intro a b hmin hmax
    refine ⟨?_, ?_⟩
    · rw [resample, List.length_map]
      exact spanLabels_length hmin hmax
    · intro L
      rw [resample_fst, mem_spanLabels hmin hmax]
      simp only [Finset.mem_image, Finset.mem_Icc]
      constructor
      · rintro ⟨u, h1, h2, h3⟩
        exact ⟨u, ⟨h1, h2⟩, h3⟩
      · rintro ⟨u, ⟨h1, h2⟩, h3⟩
        exact ⟨u, h1, h2, h3⟩
  · intro L row hmem
    simp only [resample, List.mem_map] at hmem
    obtain ⟨L0, hL0, heq⟩ := hmem
    have hL : L = L0 := (congrArg Prod.fst heq).symm
    subst hL
    have hrow : row = (List.range t.cols.length).map
        (fun j => meanOpt (bucketVals lbl t L j)) := (congrArg Prod.snd heq).symm
    subst hrow
    refine ⟨by simp, ?_⟩
    intro j hj
    have hget : ((List.range t.cols.length).map
        (fun j => meanOpt (bucketVals lbl t L j)))[j]? =
        some (meanOpt (bucketVals lbl t L j)) := by
      rw [List.getElem?_map, List.getElem?_range hj]
      rfl
    constructor
    · intro hempty
      rw [hget]
      simp [meanOpt, hempty]
    · intro hne
      rw [hget]
      simp [meanOpt, hne]

/-- C6 witness: daily resampling of the loaded KualaSG raw table, which has
valid timestamps spanning days 0 and 1. -/
theorem c6_resample_buckets_and_means_witness :
    ((resample dayLabel (processTable true kualaRawCsv)).map Prod.fst).Nodup ∧
    (resample dayLabel (processTable true kualaRawCsv)).length =
      ((Finset.Icc 0 1).image dayLabel).card :=
  ⟨(c6_resample_buckets_and_means dayLabel (Or.inl rfl)
      (processTable true kualaRawCsv)).1,
   ((c6_resample_buckets_and_means dayLabel (Or.inl rfl)
      (processTable true kualaRawCsv)).2.2.1 0 1 (by decide) (by decide)).1⟩

/-- C8. Type coercion drops no row and fails no cell loudly: the processed
table has one record per CSV record, a Timestamp-column cell that does not
parse as a date-time yields a missing index value (`none`), and a cell of
any other column that does not parse as a number yields a missing value in
its position; parseable cells keep their parsed value. -/
theorem c8_lenient_cellwise_coercion (csv : RawCsv) (b : Bool)
    (hdr : List String) (hh : hdr = if b then renameCols csv.header else csv.header) :
    (processTable b csv).rows.length = csv.rows.length ∧
    ∀ (i : Nat) (row : List Cell), csv.rows[i]? = some row →
      ∃ (ts : Option Nat) (vals : List (Option ℚ)),
        (processTable b csv).rows[i]? = some (ts, vals) ∧
        vals.length = (otherCells hdr row).length ∧
        (∀ c, tsCellOf hdr row = some c → parseTs c = none → ts = none) ∧
        (∀ c u, tsCellOf hdr row = some c → parseTs c = some u → ts = some u) ∧
        (∀ (j : Nat) (c : Cell), (otherCells hdr row)[j]? = some c →
          parseNum c = none → vals[j]? = some none) ∧
        (∀ (j : Nat) (c : Cell) (q : ℚ), (otherCells hdr row)[j]? = some c →
          parseNum c = some q → vals[j]? = some (some q)) := by
  subst hh
  constructor
  · simp [processTable]
  · intro i row hrow
    refine ⟨(processRow (if b then renameCols csv.header else csv.header) row).1,
            (processRow (if b then renameCols csv.header else csv.header) row).2,
            ?_, ?_, ?_, ?_, ?_, ?_⟩
    · simp [processTable, List.getElem?_map, hrow]
    · simp [processRow, otherCells]
    · intro c hc hpc
      simp only [tsCellOf, Option.map_eq_some'] at hc
      obtain ⟨p, hp, hpsnd⟩ := hc
      simp [processRow, hp, hpsnd, hpc]
    · intro c u hc hpc
      simp only [tsCellOf, Option.map_eq_some'] at hc
      obtain ⟨p, hp, hpsnd⟩ := hc
      simp [processRow, hp, hpsnd, hpc]
    · intro j c hjc hpn
      simp only [otherCells, List.getElem?_map, Option.map_eq_some'] at hjc
      obtain ⟨p, hp, hpsnd⟩ := hjc
      simp [processRow, List.getElem?_map, hp, hpsnd, hpn]
    · intro j c q hjc hpn
      simp only [otherCells, List.getElem?_map, Option.map_eq_some'] at hjc
      obtain ⟨p, hp, hpsnd⟩ := hjc
      simp [processRow, List.getElem?_map, hp, hpsnd, hpn]

/-- C8 witness: coercion of the KualaSG raw file, whose second record holds
one unparseable sensor value and one empty cell; the row count is preserved
and the failing cells come out as missing values. -/
theorem c8_lenient_cellwise_coercion_witness :
    (processTable true kualaRawCsv).rows.length = kualaRawCsv.rows.length ∧
    (processTable true kualaRawCsv).rows[1]? =
      some (some 1, [none, some 1, some 2, some 3, some 4, some 5, some 6,
        some 8, none]) :=
  ⟨(c8_lenient_cellwise_coercion kualaRawCsv true _ rfl).1, by decide⟩

/-- C9. For every declared river, after the rename step every column of the
raw table whose name contains a case-insensitive "time" substring is named
"Timestamp" (and the cleaned table's declared columns already satisfy this),
and the renaming precedes type coercion: the raw header presented to the
coercion step starts with "Timestamp", so the index of every processed raw
record is the date-parse of the cell of the originally time-named first
column. -/
theorem c9_rename_runs_before_coercion {river : String}
    {rawCols cleanedCols : List String}
    (h : lookupVars river = some (rawCols, cleanedCols)) :
    (∀ col ∈ renameCols rawCols, containsTime col = true → col = "Timestamp") ∧
    (∀ col ∈ cleanedCols, containsTime col = true → col = "Timestamp") ∧
    (renameCols rawCols).head? = some "Timestamp" ∧
    ∀ csv : RawCsv, csv.header = rawCols →
      (processTable true csv).rows.map Prod.fst =
        csv.rows.map (fun row => row.head?.bind parseTs) := by
  rcases lookupVars_inv h with ⟨rfl, hv⟩ | ⟨rfl, hv⟩ | ⟨rfl, hv⟩ <;>
    injection hv with h1 h2 <;> subst h1 <;> subst h2 <;>
    refine ⟨by decide, by decide, by decide, ?_⟩ <;>
    · intro csv hcsv
      have hhead : ((if true then renameCols csv.header else csv.header) :
          List String).head? = some "Timestamp" := by
        rw [if_pos rfl, hcsv]
        decide
      simp only [processTable, List.map_map]
      exact List.map_congr_left
        (fun row _ => processRow_fst_of_head _ row hhead)

/-- C9 witness: the loaded KualaSG raw file, where the coerced table's index
column is the date-parse of the original "time" column. -/
theorem c9_rename_runs_before_coercion_witness :
    (processTable true kualaRawCsv).rows.map Prod.fst =
      kualaRawCsv.rows.map (fun row => row.head?.bind parseTs) :=
  (c9_rename_runs_before_coercion (by decide :
    lookupVars "KualaSG" = some
      (["time", "PH_Sensor", "ORP_Sensor", "TR_Sensor", "CT_Sensor", "TDS_Sensor",
        "NH_SEnsor", "DO_Sensor", "COD_Sensor", "BOD_Sensor"],
       ["Timestamp", "PH_Sensor", "ORP_Sensor", "TR_Sensor", "CT_Sensor",
        "DO_Sensor"]))).2.2.2 kualaRawCsv rfl

/-- C7. While the trigger button has zero activations, `update_content`
returns the fixed placeholder for every selector state, and its result does
not depend on the filesystem at all — in particular it agrees with the run on
an empty filesystem, where any `load_data` call would have found no file. -/
theorem c7_placeholder_before_first_trigger :
    ∀ (fs : FS) (river dataset visualization time_range parameter : String),
      update_content fs 0 river dataset visualization time_range parameter =
        .ok (.message "Click 'Display Data' to show the results.") ∧
      update_content fs 0 river dataset visualization time_range parameter =
        update_content fsEmpty 0 river dataset visualization time_range parameter := by
  intro fs river dataset visualization time_range parameter
  exact ⟨rfl, rfl⟩

/-- C10. Every declared schema list has at least two entries, so for each of
the three declared rivers and both dataset kinds the parameter-options
callback succeeds (no `KeyError`) and returns a non-empty option list. -/
theorem c10_options_total_and_nonempty :
    (∀ e ∈ customVariables, 2 ≤ e.2.1.length ∧ 2 ≤ e.2.2.length) ∧
    ∀ river ∈ (["KualaSG", "Bilut", "Kechau"] : List String),
      ∀ dataset ∈ (["raw", "cleaned"] : List String),
        (update_parameter_options river dataset).isSome = true ∧
        (update_parameter_options river dataset).getD [] ≠ [] := by
  decide

/-- C10 witness: the statement evaluated at KualaSG with the raw dataset. -/
theorem c10_options_total_and_nonempty_witness :
    (update_parameter_options "KualaSG" "raw").isSome = true ∧
    (update_parameter_options "KualaSG" "raw").getD [] ≠ [] :=
  c10_options_total_and_nonempty.2 "KualaSG" (by decide) "raw" (by decide)

end WaterQuality
